import Mathlib

/-!
Verification of the flight-network reference-data service (`src/main.cpp`):
entity stores for airlines/airports/routes with ID and IATA indexes, the
adjacency index of outbound routes, the haversine great-circle distance,
the one-hop (direct + direct) itinerary search, the per-airline route-count
aggregator, and the in-memory add/update endpoints.

Modelling conventions:
- C++ `int` is modelled as `Int` (no arithmetic near the 32-bit boundary is
  involved in the verified properties), `std::size_t` indices as `Nat`.
- C++ `double` intermediate results of the haversine computation are modelled
  as real numbers; the latitude/longitude fields stored in `Airport` records
  are modelled as rationals (every finite double is a rational), cast to `ℝ`
  at use.
- `std::unordered_map` index maps are modelled as functions to `Option`;
  the program never iterates these maps, so only find/assign/erase matter.
- `std::vector` is a `List`; C++ unchecked `v[i]` indexing becomes `get?` /
  `getD` (on the consistent states the program maintains, the index is
  always in range, so the two coincide).
- `std::sort` (used by the one-hop handler) guarantees only that its output
  is a permutation of the input that is sorted with respect to the
  comparator; the relative order of elements that compare equal is
  unspecified (it is not `std::stable_sort`).  It is therefore modelled
  relationally, by its postcondition.
-/

/-- Airline record (`struct Airline`, main.cpp:17-23). -/
structure Airline where
  id : Int
  iata : String
  name : String
  country : String
  active : Bool
deriving DecidableEq, Inhabited

/-- Airport record (`struct Airport`, main.cpp:25-33); coordinates in decimal
degrees, modelled as rationals. -/
structure Airport where
  id : Int
  iata : String
  name : String
  city : String
  country : String
  latitude : ℚ
  longitude : ℚ
deriving DecidableEq, Inhabited

/-- Route record (`struct Route`, main.cpp:35-40). -/
structure Route where
  airlineId : Int
  srcAirportId : Int
  dstAirportId : Int
  stops : Int
deriving DecidableEq, Inhabited

/-- The characters accepted by `std::isspace` in the default C locale
(used by `trim`, main.cpp:59-70). -/
def isSpaceChar (c : Char) : Bool :=
  c = ' ' || c = '\t' || c = '\n' || c = '\x0b' || c = '\x0c' || c = '\r'

/-- `trim` (main.cpp:59-70): strip leading and trailing whitespace. -/
def trim (s : String) : String :=
  ⟨((s.data.dropWhile isSpaceChar).reverse.dropWhile isSpaceChar).reverse⟩

/-- `toUpper` (main.cpp:72-80): uppercase every character (`std::toupper`
in the C locale maps exactly the ASCII lowercase letters, as does
`Char.toUpper`). -/
def toUpper (s : String) : String :=
  ⟨s.data.map Char.toUpper⟩

/-- The global containers and secondary indexes of the program
(main.cpp:42-55): dense record vectors, ID and IATA index maps, and the
adjacency index `routesFromSrc` mapping a source airport ID to the indices
into `routes` of the routes originating there. -/
structure Store where
  airlines : List Airline
  airports : List Airport
  routes : List Route
  airlineIdToIndex : Int → Option Nat
  airlineIataToIndex : String → Option Nat
  airportIdToIndex : Int → Option Nat
  airportIataToIndex : String → Option Nat
  routesFromSrc : Int → List Nat

/-- The state at program start, before any ingestion. -/
def emptyStore : Store :=
  { airlines := [], airports := [], routes := []
    airlineIdToIndex := fun _ => none
    airlineIataToIndex := fun _ => none
    airportIdToIndex := fun _ => none
    airportIataToIndex := fun _ => none
    routesFromSrc := fun _ => [] }

/-- `findAirlineByIata` (main.cpp:228-235): uppercase the query, look it up
in the IATA index, and fetch the record. -/
def findAirlineByIata (st : Store) (iataRaw : String) : Option Airline :=
  (st.airlineIataToIndex (toUpper iataRaw)).bind st.airlines.get?

/-- `findAirportByIata` (main.cpp:237-244). -/
def findAirportByIata (st : Store) (iataRaw : String) : Option Airport :=
  (st.airportIataToIndex (toUpper iataRaw)).bind st.airports.get?

/-- `findAirportById` (main.cpp:246-251). -/
def findAirportById (st : Store) (id : Int) : Option Airport :=
  (st.airportIdToIndex id).bind st.airports.get?

/-- `findAirlineById` (main.cpp:253-258). -/
def findAirlineById (st : Store) (id : Int) : Option Airline :=
  (st.airlineIdToIndex id).bind st.airlines.get?

/-- `deg2rad` (main.cpp:292-295). -/
noncomputable def deg2rad (deg : ℝ) : ℝ :=
  deg * Real.pi / 180.0

/-- The C library `atan2(y, x)` on real arguments: the angle of the point
`(x, y)`, in `(-pi, pi]`, with `atan2 0 0 = 0`. -/
noncomputable def atan2 (y x : ℝ) : ℝ :=
  if 0 < x then Real.arctan (y / x)
  else if x < 0 ∧ 0 ≤ y then Real.arctan (y / x) + Real.pi
  else if x < 0 ∧ y < 0 then Real.arctan (y / x) - Real.pi
  else if x = 0 ∧ 0 < y then Real.pi / 2
  else if x = 0 ∧ y < 0 then -(Real.pi / 2)
  else 0

/-- `greatCircleMiles` (main.cpp:299-319): haversine distance, in statute
miles, on a sphere of radius 6371 km, with the `atan2`-based formulation. -/
noncomputable def greatCircleMiles (a b : Airport) : ℝ :=
  let R_km : ℝ := 6371.0
  let lat1 := deg2rad (a.latitude : ℝ)
  let lon1 := deg2rad (a.longitude : ℝ)
  let lat2 := deg2rad (b.latitude : ℝ)
  let lon2 := deg2rad (b.longitude : ℝ)
  let dlat := lat2 - lat1
  let dlon := lon2 - lon1
  let sin_dlat := Real.sin (dlat / 2.0)
  let sin_dlon := Real.sin (dlon / 2.0)
  let h := sin_dlat * sin_dlat +
           Real.cos lat1 * Real.cos lat2 * sin_dlon * sin_dlon
  let c := 2.0 * atan2 (Real.sqrt h) (Real.sqrt (1.0 - h))
  let dist_km := R_km * c
  dist_km * 0.621371

/-- When the two airports carry the same coordinates, every term of the
haversine computation collapses and the distance is exactly zero. -/
theorem greatCircleMiles_same_coords (a b : Airport)
    (hlat : a.latitude = b.latitude) (hlon : a.longitude = b.longitude) :
    greatCircleMiles a b = 0 := by
  simp only [greatCircleMiles, hlat, hlon, sub_self]
  norm_num [atan2, Real.arctan_zero]

/-- One-hop result entry (`struct OneHopRoute`, main.cpp:938-945).  The
`airline1`/`airline2` pointers, null when the airline ID did not resolve,
are modelled as `Option Airline`. -/
structure OneHopRoute where
  viaAirportId : Int
  leg1Miles : ℝ
  leg2Miles : ℝ
  totalMiles : ℝ
  airline1 : Option Airline
  airline2 : Option Airline

/-- The two-level enumeration of the one-hop handler (main.cpp:950-990),
retaining only the `(r1, r2)` route pairs that survive all filters: `r1`
outbound from the source with `stops == 0` and a resolvable intermediate
airport, `r2` outbound from the intermediate with `stops == 0` and ending
at the destination.  This computable skeleton carries everything except
the distance computation and airline resolution of the pushed record. -/
def oneHopPairs (st : Store) (srcId dstId : Int) : List (Route × Route) :=
  ((st.routesFromSrc srcId).filterMap st.routes.get?).flatMap (fun r1 =>
    if r1.stops ≠ 0 then []
    else
      match findAirportById st r1.dstAirportId with
      | none => []
      | some _ =>
        ((st.routesFromSrc r1.dstAirportId).filterMap st.routes.get?).flatMap (fun r2 =>
          if r2.stops ≠ 0 then []
          else if r2.dstAirportId ≠ dstId then []
          else [(r1, r2)]))

/-- The record pushed onto `results` for a surviving pair (main.cpp:973-987):
legs measured through the intermediate airport, airlines resolved by ID
(possibly to nothing).  For pairs produced by `oneHopPairs` the intermediate
lookup always succeeds; the `default` branch is never reached there. -/
noncomputable def mkOneHop (st : Store) (srcAirport dstAirport : Airport)
    (p : Route × Route) : OneHopRoute :=
  let midAirport := (findAirportById st p.1.dstAirportId).getD default
  let leg1 := greatCircleMiles srcAirport midAirport
  let leg2 := greatCircleMiles midAirport dstAirport
  { viaAirportId := p.1.dstAirportId
    leg1Miles := leg1
    leg2Miles := leg2
    totalMiles := leg1 + leg2
    airline1 := findAirlineById st p.1.airlineId
    airline2 := findAirlineById st p.2.airlineId }

/-- The `results` vector of the one-hop handler before sorting
(main.cpp:947-990), as built by the nested loops: for each zero-stop route
out of the source whose intermediate airport resolves, for each zero-stop
route from the intermediate to the destination, push the distance/airline
record. -/
noncomputable def oneHopCandidates (st : Store) (srcAirport dstAirport : Airport) :
    List OneHopRoute :=
  ((st.routesFromSrc srcAirport.id).filterMap st.routes.get?).flatMap (fun r1 =>
    if r1.stops ≠ 0 then []
    else
      match findAirportById st r1.dstAirportId with
      | none => []
      | some midAirport =>
        ((st.routesFromSrc r1.dstAirportId).filterMap st.routes.get?).flatMap (fun r2 =>
          if r2.stops ≠ 0 then []
          else if r2.dstAirportId ≠ dstAirport.id then []
          else
            let leg1 := greatCircleMiles srcAirport midAirport
            let leg2 := greatCircleMiles midAirport dstAirport
            [{ viaAirportId := r1.dstAirportId
               leg1Miles := leg1
               leg2Miles := leg2
               totalMiles := leg1 + leg2
               airline1 := findAirlineById st r1.airlineId
               airline2 := findAirlineById st r2.airlineId }]))

/-- The candidate list is exactly the surviving pair list with the
record-building step mapped over it. -/
theorem oneHopCandidates_eq_map (st : Store) (srcAirport dstAirport : Airport) :
    oneHopCandidates st srcAirport dstAirport =
      (oneHopPairs st srcAirport.id dstAirport.id).map
        (mkOneHop st srcAirport dstAirport) := by
  simp only [oneHopCandidates, oneHopPairs, List.map_flatMap]
  refine List.flatMap_congr (fun r1 _ => ?_)
  by_cases h1 : r1.stops ≠ 0
  · simp [h1]
  · cases hmid : findAirportById st r1.dstAirportId with
    | none => simp [h1, hmid]
    | some midAirport =>
      simp only [h1, if_false, hmid, List.map_flatMap]
      refine List.flatMap_congr (fun r2 _ => ?_)
      by_cases h2 : r2.stops ≠ 0
      · simp [h2]
      · by_cases h3 : r2.dstAirportId ≠ dstAirport.id
        · simp [h2, h3]
        · simp [h2, h3, mkOneHop, hmid]

/-- Postcondition of the `std::sort` call of the one-hop handler
(main.cpp:992-995): the output is a permutation of the candidate vector
that is sorted with respect to the comparator `a.totalMiles < b.totalMiles`
(i.e. non-decreasing in `totalMiles`).  `std::sort` is not stable, so the
relative order of candidates with equal totals is unspecified; any such
permutation is an admissible result. -/
def sortedByTotal (inp out : List OneHopRoute) : Prop :=
  inp.Perm out ∧ out.Pairwise (fun a b => a.totalMiles ≤ b.totalMiles)

/-- The observable result of the `/one-hop` handler (main.cpp:914-1045) on
resolvable endpoints: resolve source and destination by IATA, enumerate the
candidates, and return them sorted by total miles. -/
def OneHopResult (st : Store) (srcIata dstIata : String)
    (out : List OneHopRoute) : Prop :=
  ∃ srcAirport dstAirport,
    findAirportByIata st srcIata = some srcAirport ∧
    findAirportByIata st dstIata = some dstAirport ∧
    sortedByTotal (oneHopCandidates st srcAirport dstAirport) out

/-- `countRoutesByAirline`'s `std::map<int,int>` with `counts[k] += 1`
(main.cpp:271-272): an ordered association list keyed by airport ID;
an absent key is default-initialised to zero and then incremented. -/
def mapBump : List (Int × Int) → Int → List (Int × Int)
  | [], k => [(k, 1)]
  | (k', v) :: rest, k =>
    if k = k' then (k', v + 1) :: rest
    else if k < k' then (k, 1) :: (k', v) :: rest
    else (k', v) :: mapBump rest k

/-- `countRoutesByAirline` (main.cpp:263-275): scan the route table and,
for every route of the airline, count both endpoints as served. -/
def countRoutesByAirline (st : Store) (airlineId : Int) : List (Int × Int) :=
  st.routes.foldl
    (fun counts r =>
      if r.airlineId = airlineId then
        mapBump (mapBump counts r.srcAirportId) r.dstAirportId
      else counts)
    []

/-- The outcome of a mutation handler: HTTP 200 with a JSON body, HTTP 400,
or HTTP 404, with the message text of the `crow::response`. -/
inductive Resp where
  | ok : Resp
  | badRequest : String → Resp
  | notFound : String → Resp
deriving DecidableEq

/-- Parsed body of a `/airline-add` request (main.cpp:619-641): `Option`
models whether `body.has(field)` holds. -/
structure AirlineAddReq where
  id : Option Int
  iata : Option String
  name : Option String
  country : Option String
  active : Option Bool

/-- The `/airline-add` handler (main.cpp:619-672): require `id`, `iata`,
`name`; reject an already-present numeric ID; otherwise append the record
(IATA uppercased and trimmed) and index it by ID, and by IATA when the
normalised code is neither empty nor the placeholder. -/
def airlineAdd (st : Store) (req : AirlineAddReq) : Resp × Store :=
  match req.id, req.iata, req.name with
  | some id, some iataRaw, some name =>
    let country := req.country.getD ""
    let active := req.active.getD true
    if (st.airlineIdToIndex id).isSome then
      (.badRequest "Airline with that ID already exists", st)
    else
      let a : Airline :=
        { id := id, iata := toUpper (trim iataRaw), name := trim name
          country := trim country, active := active }
      let index := st.airlines.length
      (.ok,
        { st with
          airlines := st.airlines ++ [a]
          airlineIdToIndex := fun k => if k = a.id then some index else st.airlineIdToIndex k
          airlineIataToIndex :=
            if a.iata ≠ "" ∧ a.iata ≠ "\\N" then
              fun k => if k = a.iata then some index else st.airlineIataToIndex k
            else st.airlineIataToIndex })
  | _, _, _ => (.badRequest "Missing required fields: id, iata, name", st)

/-- Parsed body of a `/airline-update` request (main.cpp:675-708). -/
structure AirlineUpdateReq where
  id : Option Int
  iata : Option String
  name : Option String
  country : Option String
  active : Option Bool

/-- The field-overwrite step of the `/airline-update` handler
(main.cpp:697-708): each supplied field replaces the stored one; absent
fields are left alone. -/
def applyAirlineUpdate (a0 : Airline) (req : AirlineUpdateReq) : Airline :=
  let a1 := match req.iata with
    | some s => { a0 with iata := toUpper (trim s) } | none => a0
  let a2 := match req.name with
    | some s => { a1 with name := trim s } | none => a1
  let a3 := match req.country with
    | some s => { a2 with country := trim s } | none => a2
  match req.active with
    | some b => { a3 with active := b } | none => a3

/-- The `/airline-update` handler (main.cpp:675-730): look the airline up by
ID (404 when absent), overwrite exactly the supplied fields, and when the
IATA code changed, erase the old code's index entry (skipped when the old
code is empty) and insert the new one (skipped when the new code is empty
or the placeholder). -/
def airlineUpdate (st : Store) (req : AirlineUpdateReq) : Resp × Store :=
  match req.id with
  | none => (.badRequest "Missing required field: id", st)
  | some id =>
    match st.airlineIdToIndex id with
    | none => (.notFound "Airline ID not found", st)
    | some index =>
      let a0 := st.airlines.getD index default
      let oldIata := a0.iata
      let a := applyAirlineUpdate a0 req
      let st1 := { st with airlines := st.airlines.set index a }
      let st2 :=
        if a.iata ≠ oldIata then
          let m1 :=
            if oldIata ≠ "" then
              fun k => if k = oldIata then none else st1.airlineIataToIndex k
            else st1.airlineIataToIndex
          let m2 :=
            if a.iata ≠ "" ∧ a.iata ≠ "\\N" then
              fun k => if k = a.iata then some index else m1 k
            else m1
          { st1 with airlineIataToIndex := m2 }
        else st1
      (.ok, st2)

/-- Parsed body of a `/airport-add` request (main.cpp:733-762). -/
structure AirportAddReq where
  id : Option Int
  iata : Option String
  name : Option String
  city : Option String
  country : Option String
  latitude : Option ℚ
  longitude : Option ℚ

/-- The `/airport-add` handler (main.cpp:733-797): same contract as
`/airline-add`, airport-scoped; missing coordinates default to `0.0`. -/
def airportAdd (st : Store) (req : AirportAddReq) : Resp × Store :=
  match req.id, req.iata, req.name with
  | some id, some iataRaw, some name =>
    let city := req.city.getD ""
    let country := req.country.getD ""
    let lat := req.latitude.getD 0
    let lon := req.longitude.getD 0
    if (st.airportIdToIndex id).isSome then
      (.badRequest "Airport with that ID already exists", st)
    else
      let a : Airport :=
        { id := id, iata := toUpper (trim iataRaw), name := trim name
          city := trim city, country := trim country
          latitude := lat, longitude := lon }
      let index := st.airports.length
      (.ok,
        { st with
          airports := st.airports ++ [a]
          airportIdToIndex := fun k => if k = a.id then some index else st.airportIdToIndex k
          airportIataToIndex :=
            if a.iata ≠ "" ∧ a.iata ≠ "\\N" then
              fun k => if k = a.iata then some index else st.airportIataToIndex k
            else st.airportIataToIndex })
  | _, _, _ => (.badRequest "Missing required fields: id, iata, name", st)

/-- Parsed body of a `/airport-update` request (main.cpp:800-838). -/
structure AirportUpdateReq where
  id : Option Int
  iata : Option String
  name : Option String
  city : Option String
  country : Option String
  latitude : Option ℚ
  longitude : Option ℚ

/-- The field-overwrite step of the `/airport-update` handler
(main.cpp:821-838). -/
def applyAirportUpdate (a0 : Airport) (req : AirportUpdateReq) : Airport :=
  let a1 := match req.iata with
    | some s => { a0 with iata := toUpper (trim s) } | none => a0
  let a2 := match req.name with
    | some s => { a1 with name := trim s } | none => a1
  let a3 := match req.city with
    | some s => { a2 with city := trim s } | none => a2
  let a4 := match req.country with
    | some s => { a3 with country := trim s } | none => a3
  let a5 := match req.latitude with
    | some q => { a4 with latitude := q } | none => a4
  match req.longitude with
    | some q => { a5 with longitude := q } | none => a5

/-- The `/airport-update` handler (main.cpp:800-861): same contract as
`/airline-update`, airport-scoped. -/
def airportUpdate (st : Store) (req : AirportUpdateReq) : Resp × Store :=
  match req.id with
  | none => (.badRequest "Missing required field: id", st)
  | some id =>
    match st.airportIdToIndex id with
    | none => (.notFound "Airport ID not found", st)
    | some index =>
      let a0 := st.airports.getD index default
      let oldIata := a0.iata
      let a := applyAirportUpdate a0 req
      let st1 := { st with airports := st.airports.set index a }
      let st2 :=
        if a.iata ≠ oldIata then
          let m1 :=
            if oldIata ≠ "" then
              fun k => if k = oldIata then none else st1.airportIataToIndex k
            else st1.airportIataToIndex
          let m2 :=
            if a.iata ≠ "" ∧ a.iata ≠ "\\N" then
              fun k => if k = a.iata then some index else m1 k
            else m1
          { st1 with airportIataToIndex := m2 }
        else st1
      (.ok, st2)

/-- Parsed body of a `/route-add` request (main.cpp:864-878). -/
structure RouteAddReq where
  airline_id : Option Int
  src_id : Option Int
  dst_id : Option Int
  stops : Option Int

/-- The `/route-add` handler (main.cpp:864-909): require `airline_id`,
`src_id`, `dst_id` (a missing `stops` defaults to `0`); reject unknown
airline or endpoint IDs; otherwise append the route to the route table and
its index to the source airport's adjacency bucket. -/
def routeAdd (st : Store) (req : RouteAddReq) : Resp × Store :=
  match req.airline_id, req.src_id, req.dst_id with
  | some airlineId, some srcId, some dstId =>
    let stops := req.stops.getD 0
    if (st.airlineIdToIndex airlineId).isNone then
      (.badRequest "Unknown airline_id", st)
    else if (st.airportIdToIndex srcId).isNone then
      (.badRequest "Unknown src_id", st)
    else if (st.airportIdToIndex dstId).isNone then
      (.badRequest "Unknown dst_id", st)
    else
      let r : Route :=
        { airlineId := airlineId, srcAirportId := srcId
          dstAirportId := dstId, stops := stops }
      let index := st.routes.length
      (.ok,
        { st with
          routes := st.routes ++ [r]
          routesFromSrc := fun k =>
            if k = srcId then st.routesFromSrc k ++ [index] else st.routesFromSrc k })
  | _, _, _ => (.badRequest "Missing required fields: airline_id, src_id, dst_id", st)

/-- The per-record body of the `loadAirlines` ingestion loop
(main.cpp:134-140), applied to a record that already passed the upstream
field coercion and row filtering (CSV parsing is outside this model):
append the record and index it by ID unconditionally — there is no
duplicate-ID check — and by IATA when nonempty and not the placeholder. -/
def insertAirlineRecord (st : Store) (a : Airline) : Store :=
  let index := st.airlines.length
  { st with
    airlines := st.airlines ++ [a]
    airlineIdToIndex := fun k => if k = a.id then some index else st.airlineIdToIndex k
    airlineIataToIndex :=
      if a.iata ≠ "" ∧ a.iata ≠ "\\N" then
        fun k => if k = a.iata then some index else st.airlineIataToIndex k
      else st.airlineIataToIndex }

/-- `loadAirlines` (main.cpp:109-144) over already-parsed records. -/
def loadAirlines (st : Store) (recs : List Airline) : Store :=
  recs.foldl insertAirlineRecord st

/-- The per-record body of the `loadAirports` ingestion loop
(main.cpp:174-180); like `insertAirlineRecord`, with no duplicate-ID
check. -/
def insertAirportRecord (st : Store) (a : Airport) : Store :=
  let index := st.airports.length
  { st with
    airports := st.airports ++ [a]
    airportIdToIndex := fun k => if k = a.id then some index else st.airportIdToIndex k
    airportIataToIndex :=
      if a.iata ≠ "" ∧ a.iata ≠ "\\N" then
        fun k => if k = a.iata then some index else st.airportIataToIndex k
      else st.airportIataToIndex }

/-- `loadAirports` (main.cpp:148-184) over already-parsed records. -/
def loadAirports (st : Store) (recs : List Airport) : Store :=
  recs.foldl insertAirportRecord st

/-- The per-record body of the `loadRoutes` ingestion loop
(main.cpp:215-219): append the route and its index to the adjacency bucket
of its source airport. -/
def insertRouteRecord (st : Store) (r : Route) : Store :=
  let index := st.routes.length
  { st with
    routes := st.routes ++ [r]
    routesFromSrc := fun k =>
      if k = r.srcAirportId then st.routesFromSrc k ++ [index] else st.routesFromSrc k }

/-- `loadRoutes` (main.cpp:190-224) over already-parsed records. -/
def loadRoutes (st : Store) (recs : List Route) : Store :=
  recs.foldl insertRouteRecord st

/-- Startup ingestion (main.cpp:336-341): airlines, then airports, then
routes, starting from the empty global containers. -/
def ingest (als : List Airline) (aps : List Airport) (rts : List Route) : Store :=
  loadRoutes (loadAirports (loadAirlines emptyStore als) aps) rts

/-- A runtime mutation request: one of the five POST endpoints. -/
inductive Op where
  | airlineAdd : AirlineAddReq → Op
  | airlineUpdate : AirlineUpdateReq → Op
  | airportAdd : AirportAddReq → Op
  | airportUpdate : AirportUpdateReq → Op
  | routeAdd : RouteAddReq → Op

/-- The store after serving one mutation request (a failed request leaves
the store untouched, so the response is dropped here). -/
def applyOp (st : Store) : Op → Store
  | .airlineAdd req => (airlineAdd st req).2
  | .airlineUpdate req => (airlineUpdate st req).2
  | .airportAdd req => (airportAdd st req).2
  | .airportUpdate req => (airportUpdate st req).2
  | .routeAdd req => (routeAdd st req).2

/-- The store after serving a sequence of mutation requests. -/
def runOps (st : Store) (ops : List Op) : Store :=
  ops.foldl applyOp st

/-- Total of all counters in a counts map. -/
def sumCounts (l : List (Int × Int)) : Int :=
  (l.map Prod.snd).sum

/-- Bumping one key raises the total of the counters by exactly one. -/
theorem sumCounts_mapBump (m : List (Int × Int)) (k : Int) :
    sumCounts (mapBump m k) = sumCounts m + 1 := by
  induction m with
  | nil => simp [mapBump, sumCounts]
  | cons p rest ih =>
    obtain ⟨q, v⟩ := p
    simp only [mapBump]
    by_cases h1 : k = q
    · simp [h1, sumCounts]; ring
    · by_cases h2 : k < q
      · simp [h1, h2, sumCounts]; ring
      · simp [h1, h2, sumCounts] at ih ⊢
        omega

/-- Each matching route contributes exactly two increments to the counts
map built by the `countRoutesByAirline` scan, whatever the accumulator. -/
theorem countRoutes_aux (airlineId : Int) (rts : List Route) :
    ∀ m : List (Int × Int),
      sumCounts (rts.foldl
          (fun counts r =>
            if r.airlineId = airlineId then
              mapBump (mapBump counts r.srcAirportId) r.dstAirportId
            else counts) m)
        = sumCounts m + 2 * ((rts.filter (fun r => r.airlineId = airlineId)).length : Int) := by
  induction rts with
  | nil => simp
  | cons r rest ih =>
    intro m
    by_cases h : r.airlineId = airlineId
    · simp only [List.foldl_cons, h, if_true, List.filter_cons]
      rw [ih, sumCounts_mapBump, sumCounts_mapBump]
      simp [h]
      ring
    · simp only [List.foldl_cons, h, if_false, List.filter_cons]
      rw [ih]
      simp [h]

/-- C6: for every airline ID and every state of the route table, the
per-airport counts produced by `countRoutesByAirline` sum to exactly twice
the number of routes operated by that airline: each matching route bumps
its source airport's counter once and its destination airport's counter
once. -/
theorem countRoutesByAirline_total (st : Store) (airlineId : Int) :
    sumCounts (countRoutesByAirline st airlineId)
      = 2 * ((st.routes.filter (fun r => r.airlineId = airlineId)).length : Int) := by
  have h := countRoutes_aux airlineId st.routes []
  simpa [countRoutesByAirline, sumCounts] using h

/-- C8: for every airport A (any latitude/longitude), the haversine
computation applied to A and A itself yields a distance of exactly zero. -/
theorem greatCircleMiles_self (a : Airport) : greatCircleMiles a a = 0 :=
  greatCircleMiles_same_coords a a rfl rfl

/-- Anatomy of a surviving pair: both legs are zero-stop, the second leg
ends at the requested destination, and the intermediate airport resolves. -/
theorem oneHopPairs_spec (st : Store) (srcId dstId : Int) (r1 r2 : Route)
    (h : (r1, r2) ∈ oneHopPairs st srcId dstId) :
    r1.stops = 0 ∧ r2.stops = 0 ∧ r2.dstAirportId = dstId ∧
      (findAirportById st r1.dstAirportId).isSome := by
  simp only [oneHopPairs, List.mem_flatMap] at h
  obtain ⟨ra, _, h⟩ := h
  by_cases h1 : ra.stops ≠ 0
  · simp [h1] at h
  · rw [if_neg h1] at h
    cases hmid : findAirportById st ra.dstAirportId with
    | none => rw [hmid] at h; simp at h
    | some mid =>
      rw [hmid] at h
      simp only [List.mem_flatMap] at h
      obtain ⟨rb, _, h⟩ := h
      by_cases h2 : rb.stops ≠ 0
      · simp [h2] at h
      · rw [if_neg h2] at h
        by_cases h3 : rb.dstAirportId ≠ dstId
        · simp [h3] at h
        · rw [if_neg h3] at h
          simp only [List.mem_singleton, Prod.mk.injEq] at h
          obtain ⟨rfl, rfl⟩ := h
          
          refine ⟨not_ne_iff.mp h1, not_ne_iff.mp h2, not_ne_iff.mp h3, ?_⟩
          rw [hmid]
          rfl

/-- C2: every itinerary returned by the one-hop search arises from a pair
of routes that both have exactly zero stops; no candidate whose first or
second leg has `stops != 0` survives the enumeration. -/
theorem oneHop_zero_stops (st : Store) (srcAirport dstAirport : Airport)
    (c : OneHopRoute) (hc : c ∈ oneHopCandidates st srcAirport dstAirport) :
    ∃ r1 r2, (r1, r2) ∈ oneHopPairs st srcAirport.id dstAirport.id ∧
      c = mkOneHop st srcAirport dstAirport (r1, r2) ∧
      r1.stops = 0 ∧ r2.stops = 0 := by
  rw [oneHopCandidates_eq_map] at hc
  obtain ⟨p, hp, rfl⟩ := List.mem_map.mp hc
  obtain ⟨r1, r2⟩ := p
  obtain ⟨h1, h2, -, -⟩ := oneHopPairs_spec st srcAirport.id dstAirport.id r1 r2 hp
  exact ⟨r1, r2, hp, rfl, h1, h2⟩

/-- Fixture airline for concrete evaluations. -/
def alW1 : Airline := ⟨1, "L1", "Line One", "", true⟩

/-- Second fixture airline. -/
def alW2 : Airline := ⟨2, "L2", "Line Two", "", true⟩

/-- Fixture source airport at the origin. -/
def apW10 : Airport := ⟨10, "AAA", "Alpha", "", "", 0, 0⟩

/-- Fixture intermediate airport, same coordinates. -/
def apW20 : Airport := ⟨20, "BBB", "Beta", "", "", 0, 0⟩

/-- Fixture destination airport, same coordinates. -/
def apW30 : Airport := ⟨30, "CCC", "Gamma", "", "", 0, 0⟩

/-- Fixture route from airport 10 to airport 20, zero stops, airline 1. -/
def rW0 : Route := ⟨1, 10, 20, 0⟩

/-- Fixture route from airport 20 to airport 30, zero stops, airline 1. -/
def rW1 : Route := ⟨1, 20, 30, 0⟩

/-- Fixture route from airport 20 to airport 30, zero stops, airline 2. -/
def rW2 : Route := ⟨2, 20, 30, 0⟩

/-- A consistent concrete store over the fixtures: two airlines, three
airports, three routes, all indexes populated the way ingestion would. -/
def stW : Store :=
  { airlines := [alW1, alW2]
    airports := [apW10, apW20, apW30]
    routes := [rW0, rW1, rW2]
    airlineIdToIndex := fun k => if k = 1 then some 0 else if k = 2 then some 1 else none
    airlineIataToIndex := fun k => if k = "L1" then some 0 else if k = "L2" then some 1 else none
    airportIdToIndex := fun k =>
      if k = 10 then some 0 else if k = 20 then some 1 else if k = 30 then some 2 else none
    airportIataToIndex := fun k =>
      if k = "AAA" then some 0 else if k = "BBB" then some 1 else if k = "CCC" then some 2 else none
    routesFromSrc := fun k => if k = 10 then [0] else if k = 20 then [1, 2] else [] }

/-- The one-hop record of the first discovered candidate in `stW`. -/
noncomputable def cW2 : OneHopRoute := mkOneHop stW apW10 apW30 (rW0, rW1)

/-- Witness for C2: in the concrete store `stW`, the first candidate of the
10-to-30 search does arise from a pair of zero-stop routes. -/
theorem oneHop_zero_stops_witness :
    ∃ r1 r2, (r1, r2) ∈ oneHopPairs stW apW10.id apW30.id ∧
      cW2 = mkOneHop stW apW10 apW30 (r1, r2) ∧
      r1.stops = 0 ∧ r2.stops = 0 :=
  oneHop_zero_stops stW apW10 apW30 cW2 (by
    rw [oneHopCandidates_eq_map]
    have hp : oneHopPairs stW apW10.id apW30.id = [(rW0, rW1), (rW0, rW2)] := by decide
    rw [hp]
    exact List.mem_map_of_mem _ (by simp))

/-- C5: a pair surviving the one-hop filters is turned into a returned
candidate whether or not the airline IDs of its legs resolve; the rendered
airline field of each leg is exactly the (possibly failing) ID lookup, and
the surviving pairs do not depend on the airline table at all, so an
unresolvable airline ID can never drop an itinerary. -/
theorem oneHop_airline_optional (st : Store) (srcAirport dstAirport : Airport)
    (r1 r2 : Route) (hp : (r1, r2) ∈ oneHopPairs st srcAirport.id dstAirport.id) :
    mkOneHop st srcAirport dstAirport (r1, r2) ∈ oneHopCandidates st srcAirport dstAirport ∧
    (mkOneHop st srcAirport dstAirport (r1, r2)).airline1 = findAirlineById st r1.airlineId ∧
    (mkOneHop st srcAirport dstAirport (r1, r2)).airline2 = findAirlineById st r2.airlineId ∧
    (∀ als aIdx,
      oneHopPairs { st with airlines := als, airlineIdToIndex := aIdx }
          srcAirport.id dstAirport.id
        = oneHopPairs st srcAirport.id dstAirport.id) := by
  refine ⟨?_, rfl, rfl, fun als aIdx => rfl⟩
  rw [oneHopCandidates_eq_map]
  exact List.mem_map_of_mem _ hp

/-- Fixture route whose airline ID 99 resolves to no airline record. -/
def rW9 : Route := ⟨99, 10, 20, 0⟩

/-- The fixture store with its first route replaced by the dangling-airline
route `rW9`; the adjacency buckets are unchanged. -/
def stW5 : Store := { stW with routes := [rW9, rW1, rW2] }

/-- Witness for C5: in `stW5` the first leg's airline ID 99 is dangling,
and the candidate built from it is still among the returned candidates,
with an absent airline field. -/
theorem oneHop_airline_optional_witness :
    (mkOneHop stW5 apW10 apW30 (rW9, rW1) ∈ oneHopCandidates stW5 apW10 apW30 ∧
     (mkOneHop stW5 apW10 apW30 (rW9, rW1)).airline1 = findAirlineById stW5 rW9.airlineId ∧
     (mkOneHop stW5 apW10 apW30 (rW9, rW1)).airline2 = findAirlineById stW5 rW1.airlineId ∧
     (∀ als aIdx,
       oneHopPairs { stW5 with airlines := als, airlineIdToIndex := aIdx }
           apW10.id apW30.id
         = oneHopPairs stW5 apW10.id apW30.id)) ∧
    findAirlineById stW5 rW9.airlineId = none :=
  ⟨oneHop_airline_optional stW5 apW10 apW30 rW9 rW1 (by decide), by decide⟩

/-- C3: inserting an airline whose numeric ID is already indexed fails with
the duplicate-key response and returns the store completely unchanged, so
every subsequent lookup answers exactly as before the failed call. -/
theorem airlineAdd_duplicate_unchanged (st : Store) (req : AirlineAddReq) (id : Int)
    (hid : req.id = some id) (hiata : req.iata.isSome) (hname : req.name.isSome)
    (hdup : (st.airlineIdToIndex id).isSome) :
    airlineAdd st req = (Resp.badRequest "Airline with that ID already exists", st) ∧
    (∀ q, findAirlineById (airlineAdd st req).2 q = findAirlineById st q) ∧
    (∀ q, findAirlineByIata (airlineAdd st req).2 q = findAirlineByIata st q) := by
  obtain ⟨s, hs⟩ := Option.isSome_iff_exists.mp hiata
  obtain ⟨n, hn⟩ := Option.isSome_iff_exists.mp hname
  have h : airlineAdd st req = (Resp.badRequest "Airline with that ID already exists", st) := by
    simp [airlineAdd, hid, hs, hn, hdup]
  exact ⟨h, fun q => by rw [h], fun q => by rw [h]⟩

/-- Fixture request re-inserting the already-present airline ID 1. -/
def reqW3 : AirlineAddReq := ⟨some 1, some "ZZ", some "Dup", none, none⟩

/-- Witness for C3: re-inserting airline ID 1 into the concrete store `stW`
is rejected and observably changes nothing. -/
theorem airlineAdd_duplicate_unchanged_witness :
    airlineAdd stW reqW3 = (Resp.badRequest "Airline with that ID already exists", stW) ∧
    (∀ q, findAirlineById (airlineAdd stW reqW3).2 q = findAirlineById stW q) ∧
    (∀ q, findAirlineByIata (airlineAdd stW reqW3).2 q = findAirlineByIata stW q) :=
  airlineAdd_duplicate_unchanged stW reqW3 1 rfl rfl rfl (by decide)

/-- C9: a valid add-route request stores the route with `stops` equal to 0
when the `stops` field is absent, and equal to the supplied value when
present, and appends the new route's index to its source's adjacency
bucket. -/
theorem routeAdd_stops_default (st : Store) (req : RouteAddReq) (aid sid did : Int)
    (ha : req.airline_id = some aid) (hs : req.src_id = some sid) (hd : req.dst_id = some did)
    (h1 : (st.airlineIdToIndex aid).isSome) (h2 : (st.airportIdToIndex sid).isSome)
    (h3 : (st.airportIdToIndex did).isSome) :
    (routeAdd st req).1 = Resp.ok ∧
    (routeAdd st req).2.routes = st.routes ++
      [{ airlineId := aid, srcAirportId := sid, dstAirportId := did
         stops := req.stops.getD 0 }] ∧
    (req.stops = none → req.stops.getD 0 = 0) ∧
    (∀ s, req.stops = some s → req.stops.getD 0 = s) ∧
    (routeAdd st req).2.routesFromSrc sid = st.routesFromSrc sid ++ [st.routes.length] := by
  obtain ⟨x1, e1⟩ := Option.isSome_iff_exists.mp h1
  obtain ⟨x2, e2⟩ := Option.isSome_iff_exists.mp h2
  obtain ⟨x3, e3⟩ := Option.isSome_iff_exists.mp h3
  refine ⟨?_, ?_, ?_, ?_, ?_⟩
  · simp [routeAdd, ha, hs, hd, e1, e2, e3]
  · simp [routeAdd, ha, hs, hd, e1, e2, e3]
  · intro h; simp [h]
  · intro s h; simp [h]
  · simp [routeAdd, ha, hs, hd, e1, e2, e3]

/-- Fixture request adding a route with no `stops` field. -/
def reqW9 : RouteAddReq := ⟨some 1, some 10, some 20, none⟩

/-- Witness for C9: adding a route without a `stops` field to `stW` stores
it with zero stops. -/
theorem routeAdd_stops_default_witness :
    (routeAdd stW reqW9).1 = Resp.ok ∧
    (routeAdd stW reqW9).2.routes = stW.routes ++
      [{ airlineId := 1, srcAirportId := 10, dstAirportId := 20
         stops := reqW9.stops.getD 0 }] ∧
    (reqW9.stops = none → reqW9.stops.getD 0 = 0) ∧
    (∀ s, reqW9.stops = some s → reqW9.stops.getD 0 = s) ∧
    (routeAdd stW reqW9).2.routesFromSrc 10 = stW.routesFromSrc 10 ++ [stW.routes.length] :=
  routeAdd_stops_default stW reqW9 1 10 20 rfl rfl rfl (by decide) (by decide) (by decide)

/-- C10: the add endpoints reject any request missing `id`, `iata` or
`name` with a validation error and an unchanged store, while an explicit
empty-string IATA code is accepted: the record is stored with an empty
code and the IATA index is left untouched. -/
theorem add_requires_id_iata_name (st : Store) (reqAl : AirlineAddReq)
    (reqAp : AirportAddReq) :
    (reqAl.id = none ∨ reqAl.iata = none ∨ reqAl.name = none →
      airlineAdd st reqAl = (Resp.badRequest "Missing required fields: id, iata, name", st)) ∧
    (reqAp.id = none ∨ reqAp.iata = none ∨ reqAp.name = none →
      airportAdd st reqAp = (Resp.badRequest "Missing required fields: id, iata, name", st)) ∧
    (∀ id nm, reqAl.id = some id → reqAl.iata = some "" → reqAl.name = some nm →
      st.airlineIdToIndex id = none →
      (airlineAdd st reqAl).1 = Resp.ok ∧
      (airlineAdd st reqAl).2.airlineIataToIndex = st.airlineIataToIndex ∧
      (airlineAdd st reqAl).2.airlines = st.airlines ++
        [{ id := id, iata := "", name := trim nm, country := trim (reqAl.country.getD "")
           active := reqAl.active.getD true }]) ∧
    (∀ id nm, reqAp.id = some id → reqAp.iata = some "" → reqAp.name = some nm →
      st.airportIdToIndex id = none →
      (airportAdd st reqAp).1 = Resp.ok ∧
      (airportAdd st reqAp).2.airportIataToIndex = st.airportIataToIndex ∧
      (airportAdd st reqAp).2.airports = st.airports ++
        [{ id := id, iata := "", name := trim nm, city := trim (reqAp.city.getD "")
           country := trim (reqAp.country.getD ""), latitude := reqAp.latitude.getD 0
           longitude := reqAp.longitude.getD 0 }]) := by
  refine ⟨?_, ?_, ?_, ?_⟩
  · intro h
    cases hI : reqAl.id <;> cases hA : reqAl.iata <;> cases hN : reqAl.name <;>
      simp_all [airlineAdd]
  · intro h
    cases hI : reqAp.id <;> cases hA : reqAp.iata <;> cases hN : reqAp.name <;>
      simp_all [airportAdd]
  · intro id nm h1 h2 h3 h4
    refine ⟨?_, ?_, ?_⟩ <;> simp [airlineAdd, h1, h2, h3, h4, trim, toUpper]
  · intro id nm h1 h2 h3 h4
    refine ⟨?_, ?_, ?_⟩ <;> simp [airportAdd, h1, h2, h3, h4, trim, toUpper]

/-- Fixture add-airline request with no `id` field. -/
def reqAlM : AirlineAddReq := ⟨none, some "XX", some "NoId", none, none⟩

/-- Fixture add-airport request with no `iata` field. -/
def reqApM : AirportAddReq := ⟨some 50, none, some "NoIata", none, none, none, none⟩

/-- Fixture add-airline request with an explicit empty IATA code. -/
def reqAlE : AirlineAddReq := ⟨some 77, some "", some "NewAl", none, none⟩

/-- Fixture add-airport request with an explicit empty IATA code. -/
def reqApE : AirportAddReq := ⟨some 78, some "", some "NewAp", none, none, none, none⟩

/-- Witness for C10: on the concrete store `stW`, a request missing `id`
(resp. `iata`) is rejected leaving the store unchanged, and requests with
an explicit empty IATA code succeed without touching the IATA index. -/
theorem add_requires_id_iata_name_witness :
    airlineAdd stW reqAlM = (Resp.badRequest "Missing required fields: id, iata, name", stW) ∧
    airportAdd stW reqApM = (Resp.badRequest "Missing required fields: id, iata, name", stW) ∧
    ((airlineAdd stW reqAlE).1 = Resp.ok ∧
     (airlineAdd stW reqAlE).2.airlineIataToIndex = stW.airlineIataToIndex ∧
     (airlineAdd stW reqAlE).2.airlines = stW.airlines ++
       [{ id := 77, iata := "", name := trim "NewAl", country := trim (reqAlE.country.getD "")
          active := reqAlE.active.getD true }]) ∧
    ((airportAdd stW reqApE).1 = Resp.ok ∧
     (airportAdd stW reqApE).2.airportIataToIndex = stW.airportIataToIndex ∧
     (airportAdd stW reqApE).2.airports = stW.airports ++
       [{ id := 78, iata := "", name := trim "NewAp", city := trim (reqApE.city.getD "")
          country := trim (reqApE.country.getD ""), latitude := reqApE.latitude.getD 0
          longitude := reqApE.longitude.getD 0 }]) :=
  ⟨(add_requires_id_iata_name stW reqAlM reqApM).1 (Or.inl rfl),
   (add_requires_id_iata_name stW reqAlM reqApM).2.1 (Or.inr (Or.inl rfl)),
   (add_requires_id_iata_name stW reqAlE reqApE).2.2.1 77 "NewAl" rfl rfl rfl (by decide),
   (add_requires_id_iata_name stW reqAlE reqApE).2.2.2 78 "NewAp" rfl rfl rfl (by decide)⟩

/-- Every member of the candidate list is the record built from some
surviving zero-stop route pair. -/
theorem mem_oneHopCandidates_spec (st : Store) (srcAirport dstAirport : Airport)
    (c : OneHopRoute) (hc : c ∈ oneHopCandidates st srcAirport dstAirport) :
    ∃ r1 r2, (r1, r2) ∈ oneHopPairs st srcAirport.id dstAirport.id ∧
      c = mkOneHop st srcAirport dstAirport (r1, r2) ∧
      r1.stops = 0 ∧ r2.stops = 0 := by
  rw [oneHopCandidates_eq_map] at hc
  obtain ⟨p, hp, rfl⟩ := List.mem_map.mp hc
  obtain ⟨r1, r2⟩ := p
  obtain ⟨h1, h2, -, -⟩ := oneHopPairs_spec st srcAirport.id dstAirport.id r1 r2 hp
  exact ⟨r1, r2, hp, rfl, h1, h2⟩

/-- The one-hop record of the second discovered candidate in `stW`. -/
noncomputable def cW3 : OneHopRoute := mkOneHop stW apW10 apW30 (rW0, rW2)

/-- The candidates of the 10-to-30 search in `stW`, in discovery order:
both via airport 20, first over route `rW1`, then over route `rW2`. -/
theorem oneHopCandidates_stW : oneHopCandidates stW apW10 apW30 = [cW2, cW3] := by
  rw [oneHopCandidates_eq_map]
  have hp : oneHopPairs stW apW10.id apW30.id = [(rW0, rW1), (rW0, rW2)] := by decide
  rw [hp]
  rfl

/-- All fixture airports share coordinates, so the first candidate's total
distance is exactly zero. -/
theorem cW2_total : cW2.totalMiles = 0 := by
  show (mkOneHop stW apW10 apW30 (rW0, rW1)).totalMiles = 0
  simp only [mkOneHop]
  rw [(by decide : findAirportById stW (rW0, rW1).1.dstAirportId = some apW20)]
  rw [Option.getD_some,
    greatCircleMiles_same_coords apW10 apW20 rfl rfl,
    greatCircleMiles_same_coords apW20 apW30 rfl rfl]
  norm_num

/-- The second candidate's total distance is exactly zero as well. -/
theorem cW3_total : cW3.totalMiles = 0 := by
  show (mkOneHop stW apW10 apW30 (rW0, rW2)).totalMiles = 0
  simp only [mkOneHop]
  rw [(by decide : findAirportById stW (rW0, rW2).1.dstAirportId = some apW20)]
  rw [Option.getD_some,
    greatCircleMiles_same_coords apW10 apW20 rfl rfl,
    greatCircleMiles_same_coords apW20 apW30 rfl rfl]
  norm_num

/-- The two tied candidates are distinct records: their second legs are
operated by different airlines. -/
theorem cW2_ne_cW3 : cW2 ≠ cW3 := by
  intro h
  have h2 : cW2.airline2 = cW3.airline2 := congrArg OneHopRoute.airline2 h
  have e1 : cW2.airline2 = some alW1 := by decide
  have e2 : cW3.airline2 = some alW2 := by decide
  rw [e1, e2] at h2
  exact absurd (Option.some.inj h2) (by decide)

/-- C1 counterexample: in the store `stW` the 10-to-30 search discovers the
two distinct candidates `cW2` then `cW3`, tied at the same total distance,
and the reversed list `[cW3, cW2]` is an admissible output of the handler's
`std::sort` call — so the returned list is not guaranteed to keep
equal-total itineraries in discovery order, contrary to the claim's
stable-sort guarantee. -/
theorem oneHop_stable_sort_cex :
    OneHopResult stW "AAA" "CCC" [cW3, cW2] ∧
    oneHopCandidates stW apW10 apW30 = [cW2, cW3] ∧
    cW2.totalMiles = cW3.totalMiles ∧
    cW2 ≠ cW3 := by
  refine ⟨⟨apW10, apW30, by decide, by decide, ?_, ?_⟩,
    oneHopCandidates_stW, ?_, cW2_ne_cW3⟩
  · rw [oneHopCandidates_stW]
    exact List.Perm.swap cW3 cW2 []
  · refine List.Pairwise.cons ?_ (List.pairwise_singleton _ _)
    intro y hy
    rw [List.mem_singleton] at hy
    subst hy
    rw [cW3_total, cW2_total]
  · rw [cW2_total, cW3_total]

/-- C1 (amended): every admissible result of the one-hop handler on
resolvable endpoints is sorted non-decreasing by total miles and is a
permutation of exactly the candidates discovered by the two-level
enumeration (each arising from a zero-stop route pair); the relative order
of equal-total itineraries is unspecified, because the handler sorts with
`std::sort`, which is not stable. -/
theorem oneHop_sorted (st : Store) (srcIata dstIata : String) (out : List OneHopRoute)
    (h : OneHopResult st srcIata dstIata out) :
    out.Pairwise (fun x y => x.totalMiles ≤ y.totalMiles) ∧
    ∃ srcAirport dstAirport,
      findAirportByIata st srcIata = some srcAirport ∧
      findAirportByIata st dstIata = some dstAirport ∧
      (oneHopCandidates st srcAirport dstAirport).Perm out ∧
      ∀ c ∈ out, ∃ r1 r2,
        (r1, r2) ∈ oneHopPairs st srcAirport.id dstAirport.id ∧
        c = mkOneHop st srcAirport dstAirport (r1, r2) ∧
        r1.stops = 0 ∧ r2.stops = 0 := by
  obtain ⟨srcAirport, dstAirport, hs, hd, hperm, hsorted⟩ := h
  refine ⟨hsorted, srcAirport, dstAirport, hs, hd, hperm, ?_⟩
  intro c hc
  exact mem_oneHopCandidates_spec st srcAirport dstAirport c (hperm.mem_iff.mpr hc)

/-- Witness for the amended C1: the discovery-order list `[cW2, cW3]` is an
admissible output for the concrete search, and the theorem's conclusions
hold of it. -/
theorem oneHop_sorted_witness :
    List.Pairwise (fun x y => x.totalMiles ≤ y.totalMiles) [cW2, cW3] ∧
    ∃ srcAirport dstAirport,
      findAirportByIata stW "AAA" = some srcAirport ∧
      findAirportByIata stW "CCC" = some dstAirport ∧
      (oneHopCandidates stW srcAirport dstAirport).Perm [cW2, cW3] ∧
      ∀ c ∈ [cW2, cW3], ∃ r1 r2,
        (r1, r2) ∈ oneHopPairs stW srcAirport.id dstAirport.id ∧
        c = mkOneHop stW srcAirport dstAirport (r1, r2) ∧
        r1.stops = 0 ∧ r2.stops = 0 :=
  oneHop_sorted stW "AAA" "CCC" [cW2, cW3]
    ⟨apW10, apW30, by decide, by decide,
     by rw [oneHopCandidates_stW],
     by
      refine List.Pairwise.cons ?_ (List.pairwise_singleton _ _)
      intro y hy
      rw [List.mem_singleton] at hy
      subst hy
      rw [cW2_total, cW3_total]⟩

/-- The overwrite step never touches the airline's numeric ID. -/
theorem applyAirlineUpdate_id (a0 : Airline) (req : AirlineUpdateReq) :
    (applyAirlineUpdate a0 req).id = a0.id := by
  obtain ⟨oid, oi, onm, oc, oa⟩ := req
  cases oi <;> cases onm <;> cases oc <;> cases oa <;> rfl

/-- When an IATA code is supplied, the overwrite step stores it trimmed and
uppercased. -/
theorem applyAirlineUpdate_iata (a0 : Airline) (req : AirlineUpdateReq) (s : String)
    (h : req.iata = some s) :
    (applyAirlineUpdate a0 req).iata = toUpper (trim s) := by
  obtain ⟨oid, oi, onm, oc, oa⟩ := req
  subst h
  cases onm <;> cases oc <;> cases oa <;> rfl

/-- The overwrite step never touches the airport's numeric ID. -/
theorem applyAirportUpdate_id (a0 : Airport) (req : AirportUpdateReq) :
    (applyAirportUpdate a0 req).id = a0.id := by
  obtain ⟨oid, oi, onm, oc1, oc2, ola, olo⟩ := req
  cases oi <;> cases onm <;> cases oc1 <;> cases oc2 <;> cases ola <;> cases olo <;> rfl

/-- When an IATA code is supplied, the airport overwrite step stores it
trimmed and uppercased. -/
theorem applyAirportUpdate_iata (a0 : Airport) (req : AirportUpdateReq) (s : String)
    (h : req.iata = some s) :
    (applyAirportUpdate a0 req).iata = toUpper (trim s) := by
  obtain ⟨oid, oi, onm, oc1, oc2, ola, olo⟩ := req
  subst h
  cases onm <;> cases oc1 <;> cases oc2 <;> cases ola <;> cases olo <;> rfl

/-- Fields not supplied in an airport update keep their stored values. -/
theorem applyAirportUpdate_unsupplied (a0 : Airport) (req : AirportUpdateReq) :
    (req.name = none → (applyAirportUpdate a0 req).name = a0.name) ∧
    (req.city = none → (applyAirportUpdate a0 req).city = a0.city) ∧
    (req.country = none → (applyAirportUpdate a0 req).country = a0.country) ∧
    (req.latitude = none → (applyAirportUpdate a0 req).latitude = a0.latitude) ∧
    (req.longitude = none → (applyAirportUpdate a0 req).longitude = a0.longitude) := by
  obtain ⟨oid, oi, onm, oc1, oc2, ola, olo⟩ := req
  cases oi <;> cases onm <;> cases oc1 <;> cases oc2 <;> cases ola <;> cases olo <;>
    simp [applyAirportUpdate]

/-- Fixture update request clearing airline 1's IATA code. -/
def reqC4 : AirlineUpdateReq := ⟨some 1, some "", none, none, none⟩

/-- C4 counterexample: updating airline 1 of `stW` (stored code "L1") with
an explicit empty IATA code succeeds and REMOVES the old code's index
entry — "L1" no longer resolves — whereas the claim states that the removal
of the old code's entry is skipped when the new code is empty (the code
skips the removal only when the OLD code is empty). -/
theorem update_iata_empty_cex :
    (airlineUpdate stW reqC4).1 = Resp.ok ∧
    stW.airlineIataToIndex "L1" = some 0 ∧
    findAirlineByIata stW "L1" = some alW1 ∧
    (airlineUpdate stW reqC4).2.airlineIataToIndex "L1" = none ∧
    findAirlineByIata (airlineUpdate stW reqC4).2 "L1" = none :=
  ⟨by decide, by decide, by decide, by decide, by decide⟩

/-- C4 (amended): an update that changes the IATA code to a new normalised
code overwrites only the supplied fields; the old code's index entry is
removed unless the OLD code is empty (in particular it is removed even when
the new code is empty, contrary to the original claim), and the new code's
entry is inserted unless the new code is empty or the placeholder; after an
airport update between distinct nonempty codes, the old code no longer
resolves via the IATA lookup and the new code resolves to the updated
record, which keeps the same numeric ID. -/
theorem update_iata_reindex :
    (∀ (st : Store) (req : AirlineUpdateReq) (id : Int) (index : Nat)
        (a : Airline) (s : String),
      req.id = some id →
      st.airlineIdToIndex id = some index →
      st.airlines.get? index = some a →
      req.iata = some s →
      toUpper (trim s) ≠ a.iata →
      a.iata ≠ "" →
      (airlineUpdate st req).1 = Resp.ok ∧
      (airlineUpdate st req).2.airlineIataToIndex a.iata = none) ∧
    (∀ (st : Store) (req : AirportUpdateReq) (id : Int) (index : Nat)
        (a : Airport) (s : String),
      req.id = some id →
      st.airportIdToIndex id = some index →
      st.airports.get? index = some a →
      req.iata = some s →
      toUpper (trim s) ≠ a.iata →
      a.iata ≠ "" →
      toUpper (trim s) ≠ "" →
      toUpper (trim s) ≠ "\\N" →
      (airportUpdate st req).1 = Resp.ok ∧
      (airportUpdate st req).2.airports.get? index = some (applyAirportUpdate a req) ∧
      (applyAirportUpdate a req).id = a.id ∧
      (applyAirportUpdate a req).iata = toUpper (trim s) ∧
      (req.name = none → (applyAirportUpdate a req).name = a.name) ∧
      (req.city = none → (applyAirportUpdate a req).city = a.city) ∧
      (req.country = none → (applyAirportUpdate a req).country = a.country) ∧
      (req.latitude = none → (applyAirportUpdate a req).latitude = a.latitude) ∧
      (req.longitude = none → (applyAirportUpdate a req).longitude = a.longitude) ∧
      (∀ q, toUpper q = a.iata → findAirportByIata (airportUpdate st req).2 q = none) ∧
      (∀ q, toUpper q = toUpper (trim s) →
        findAirportByIata (airportUpdate st req).2 q = some (applyAirportUpdate a req))) := by
  constructor
  · intro st req id index a s hid hidx hget hiata hne hold
    have ha0 : st.airlines.getD index default = a := by
      rw [List.getD_eq_getD_get?, hget]
      rfl
    have hia : (applyAirlineUpdate a req).iata = toUpper (trim s) :=
      applyAirlineUpdate_iata a req s hiata
    constructor
    · simp only [airlineUpdate, hid, hidx, ha0]
    · simp only [airlineUpdate, hid, hidx, ha0, hia]
      rw [if_pos hne]
      by_cases hc : toUpper (trim s) ≠ "" ∧ toUpper (trim s) ≠ "\\N"
      · rw [if_pos hc]
        simp only []
        rw [if_neg (fun h => hne h.symm), if_pos hold, if_pos rfl]
      · rw [if_neg hc]
        rw [if_pos hold]
        simp
  · intro st req id index a s hid hidx hget hiata hne hold hnc1 hnc2
    have ha0 : st.airports.getD index default = a := by
      rw [List.getD_eq_getD_get?, hget]
      rfl
    have hia : (applyAirportUpdate a req).iata = toUpper (trim s) :=
      applyAirportUpdate_iata a req s hiata
    obtain ⟨hlt, -⟩ := List.get?_eq_some.mp hget
    have hset : (st.airports.set index (applyAirportUpdate a req)).get? index
        = some (applyAirportUpdate a req) :=
      List.get?_set_eq_of_lt _ hlt
    obtain ⟨hpn, hpc, hpco, hpla, hplo⟩ := applyAirportUpdate_unsupplied a req
    refine ⟨?_, ?_, applyAirportUpdate_id a req, hia, hpn, hpc, hpco, hpla, hplo, ?_, ?_⟩
    · simp only [airportUpdate, hid, hidx, ha0]
    · simp only [airportUpdate, hid, hidx, ha0, hia]
      rw [if_pos hne, if_pos ⟨hnc1, hnc2⟩]
      exact hset
    · intro q hq
      simp only [airportUpdate, hid, hidx, ha0, hia, findAirportByIata, hq]
      rw [if_pos hne, if_pos ⟨hnc1, hnc2⟩]
      simp only []
      rw [if_neg (fun h => hne h.symm), if_pos hold, if_pos rfl]
      rfl
    · intro q hq
      simp only [airportUpdate, hid, hidx, ha0, hia, findAirportByIata, hq]
      rw [if_pos hne, if_pos ⟨hnc1, hnc2⟩]
      simp
      simpa using hset

/-- Fixture update request changing airline 1's IATA code to "ZZ". -/
def reqU4a : AirlineUpdateReq := ⟨some 1, some "ZZ", none, none, none⟩

/-- Fixture update request changing airport 10's IATA code to "ddd". -/
def reqU4p : AirportUpdateReq := ⟨some 10, some "ddd", none, none, none, none, none⟩

/-- Witness for the amended C4: concrete airline and airport IATA updates
on `stW` remove the old codes and (for the airport) make the new code
resolve to the updated record with the same ID. -/
theorem update_iata_reindex_witness :
    ((airlineUpdate stW reqU4a).1 = Resp.ok ∧
     (airlineUpdate stW reqU4a).2.airlineIataToIndex alW1.iata = none) ∧
    ((airportUpdate stW reqU4p).1 = Resp.ok ∧
     (airportUpdate stW reqU4p).2.airports.get? 0 = some (applyAirportUpdate apW10 reqU4p) ∧
     (applyAirportUpdate apW10 reqU4p).id = apW10.id ∧
     (applyAirportUpdate apW10 reqU4p).iata = toUpper (trim "ddd") ∧
     (reqU4p.name = none → (applyAirportUpdate apW10 reqU4p).name = apW10.name) ∧
     (reqU4p.city = none → (applyAirportUpdate apW10 reqU4p).city = apW10.city) ∧
     (reqU4p.country = none → (applyAirportUpdate apW10 reqU4p).country = apW10.country) ∧
     (reqU4p.latitude = none → (applyAirportUpdate apW10 reqU4p).latitude = apW10.latitude) ∧
     (reqU4p.longitude = none → (applyAirportUpdate apW10 reqU4p).longitude = apW10.longitude) ∧
     (∀ q, toUpper q = apW10.iata → findAirportByIata (airportUpdate stW reqU4p).2 q = none) ∧
     (∀ q, toUpper q = toUpper (trim "ddd") →
       findAirportByIata (airportUpdate stW reqU4p).2 q = some (applyAirportUpdate apW10 reqU4p))) :=
  ⟨update_iata_reindex.1 stW reqU4a 1 0 alW1 "ZZ" rfl (by decide) (by decide) rfl
     (by decide) (by decide),
   update_iata_reindex.2 stW reqU4p 10 0 apW10 "ddd" rfl (by decide) (by decide) rfl
     (by decide) (by decide) (by decide) (by decide)⟩

/-- Startup airline ingestion appends exactly the given records. -/
theorem loadAirlines_airlines (recs : List Airline) :
    ∀ st : Store, (loadAirlines st recs).airlines = st.airlines ++ recs := by
  induction recs with
  | nil => intro st; simp [loadAirlines]
  | cons r rs ih =>
    intro st
    rw [loadAirlines, List.foldl_cons]
    have h := ih (insertAirlineRecord st r)
    rw [loadAirlines] at h
    rw [h]
    simp [insertAirlineRecord]

/-- Startup airline ingestion leaves every airport-side field alone. -/
theorem loadAirlines_airportPart (recs : List Airline) :
    ∀ st : Store, (loadAirlines st recs).airports = st.airports ∧
      (loadAirlines st recs).airportIdToIndex = st.airportIdToIndex := by
  induction recs with
  | nil => intro st; exact ⟨rfl, rfl⟩
  | cons r rs ih =>
    intro st
    rw [loadAirlines, List.foldl_cons]
    have h := ih (insertAirlineRecord st r)
    rw [loadAirlines] at h
    exact h

/-- After airline ingestion, every ID either ingested now or indexed before
is indexed. -/
theorem loadAirlines_idIdx_isSome (recs : List Airline) :
    ∀ (st : Store) (k : Int),
      k ∈ recs.map Airline.id ∨ (st.airlineIdToIndex k).isSome →
      ((loadAirlines st recs).airlineIdToIndex k).isSome := by
  induction recs with
  | nil =>
    intro st k h
    rcases h with h | h
    · simp at h
    · simpa [loadAirlines] using h
  | cons r rs ih =>
    intro st k h
    rw [loadAirlines, List.foldl_cons]
    have goal := ih (insertAirlineRecord st r) k
    rw [loadAirlines] at goal
    apply goal
    rcases h with h | h
    · rw [List.map_cons, List.mem_cons] at h
      rcases h with h | h
      · right
        simp [insertAirlineRecord, h]
      · left
        exact h
    · right
      simp only [insertAirlineRecord]
      by_cases hk : k = r.id
      · simp [hk]
      · simpa [hk] using h

/-- Startup airport ingestion appends exactly the given records. -/
theorem loadAirports_airports (recs : List Airport) :
    ∀ st : Store, (loadAirports st recs).airports = st.airports ++ recs := by
  induction recs with
  | nil => intro st; simp [loadAirports]
  | cons r rs ih =>
    intro st
    rw [loadAirports, List.foldl_cons]
    have h := ih (insertAirportRecord st r)
    rw [loadAirports] at h
    rw [h]
    simp [insertAirportRecord]

/-- Startup airport ingestion leaves every airline-side field alone. -/
theorem loadAirports_airlinePart (recs : List Airport) :
    ∀ st : Store, (loadAirports st recs).airlines = st.airlines ∧
      (loadAirports st recs).airlineIdToIndex = st.airlineIdToIndex := by
  induction recs with
  | nil => intro st; exact ⟨rfl, rfl⟩
  | cons r rs ih =>
    intro st
    rw [loadAirports, List.foldl_cons]
    have h := ih (insertAirportRecord st r)
    rw [loadAirports] at h
    exact h

/-- After airport ingestion, every ID either ingested now or indexed before
is indexed. -/
theorem loadAirports_idIdx_isSome (recs : List Airport) :
    ∀ (st : Store) (k : Int),
      k ∈ recs.map Airport.id ∨ (st.airportIdToIndex k).isSome →
      ((loadAirports st recs).airportIdToIndex k).isSome := by
  induction recs with
  | nil =>
    intro st k h
    rcases h with h | h
    · simp at h
    · simpa [loadAirports] using h
  | cons r rs ih =>
    intro st k h
    rw [loadAirports, List.foldl_cons]
    have goal := ih (insertAirportRecord st r) k
    rw [loadAirports] at goal
    apply goal
    rcases h with h | h
    · rw [List.map_cons, List.mem_cons] at h
      rcases h with h | h
      · right
        simp [insertAirportRecord, h]
      · left
        exact h
    · right
      simp only [insertAirportRecord]
      by_cases hk : k = r.id
      · simp [hk]
      · simpa [hk] using h

/-- Startup route ingestion leaves every entity-store field alone. -/
theorem loadRoutes_entityPart (recs : List Route) :
    ∀ st : Store, (loadRoutes st recs).airlines = st.airlines ∧
      (loadRoutes st recs).airports = st.airports ∧
      (loadRoutes st recs).airlineIdToIndex = st.airlineIdToIndex ∧
      (loadRoutes st recs).airportIdToIndex = st.airportIdToIndex := by
  induction recs with
  | nil => intro st; exact ⟨rfl, rfl, rfl, rfl⟩
  | cons r rs ih =>
    intro st
    rw [loadRoutes, List.foldl_cons]
    have h := ih (insertRouteRecord st r)
    rw [loadRoutes] at h
    exact h

/-- The ID-uniqueness invariant of the two entity stores: record IDs are
pairwise distinct, and every stored ID is present in its ID index (the
property that makes the duplicate-ID check of the add handlers complete). -/
def IdsInv (st : Store) : Prop :=
  (st.airlines.map Airline.id).Nodup ∧
  (st.airports.map Airport.id).Nodup ∧
  (∀ k, k ∈ st.airlines.map Airline.id → (st.airlineIdToIndex k).isSome) ∧
  (∀ k, k ∈ st.airports.map Airport.id → (st.airportIdToIndex k).isSome)

/-- Ingestion of duplicate-free record sequences establishes the
ID-uniqueness invariant. -/
theorem IdsInv_ingest (als : List Airline) (aps : List Airport) (rts : List Route)
    (hal : (als.map Airline.id).Nodup) (hap : (aps.map Airport.id).Nodup) :
    IdsInv (ingest als aps rts) := by
  obtain ⟨e1, e2, e3, e4⟩ := loadRoutes_entityPart rts (loadAirports (loadAirlines emptyStore als) aps)
  obtain ⟨f1, f2⟩ := loadAirports_airlinePart aps (loadAirlines emptyStore als)
  obtain ⟨g1, g2⟩ := loadAirlines_airportPart als emptyStore
  have hAl : (ingest als aps rts).airlines = als := by
    rw [ingest, e1, f1, loadAirlines_airlines als emptyStore]
    rfl
  have hAp : (ingest als aps rts).airports = aps := by
    rw [ingest, e2, loadAirports_airports aps (loadAirlines emptyStore als), g1]
    rfl
  refine ⟨by rw [hAl]; exact hal, by rw [hAp]; exact hap, ?_, ?_⟩
  · intro k hk
    rw [hAl] at hk
    rw [ingest, e3, f2]
    exact loadAirlines_idIdx_isSome als emptyStore k (Or.inl hk)
  · intro k hk
    rw [hAp] at hk
    rw [ingest, e4]
    exact loadAirports_idIdx_isSome aps (loadAirlines emptyStore als) k (Or.inl hk)

/-- Setting a list element to one with the same key leaves the key map
unchanged. -/
theorem map_set_eq_of_key {α β : Type} (f : α → β) (d : α) :
    ∀ (l : List α) (i : Nat) (a : α), f a = f (l.getD i d) →
      (l.set i a).map f = l.map f := by
  intro l
  induction l with
  | nil => intro i a _; simp
  | cons x xs ih =>
    intro i a h
    cases i with
    | zero =>
      rw [List.getD_cons_zero] at h
      simp [h]
    | succ n =>
      rw [List.getD_cons_succ] at h
      simp only [List.set_cons_succ, List.map_cons]
      rw [ih n a h]

/-- An airline update changes neither the stored ID multiset, the ID
indexes, nor any airport-side field. -/
theorem airlineUpdate_shape (st : Store) (req : AirlineUpdateReq) :
    (airlineUpdate st req).2.airlines.map Airline.id = st.airlines.map Airline.id ∧
    (airlineUpdate st req).2.airlineIdToIndex = st.airlineIdToIndex ∧
    (airlineUpdate st req).2.airports = st.airports ∧
    (airlineUpdate st req).2.airportIdToIndex = st.airportIdToIndex := by
  obtain ⟨oid, oi, onm, oc, oa⟩ := req
  cases oid with
  | none => exact ⟨rfl, rfl, rfl, rfl⟩
  | some id =>
    cases hidx : st.airlineIdToIndex id with
    | none => simp [airlineUpdate, hidx]
    | some index =>
      have hairl : (airlineUpdate st ⟨some id, oi, onm, oc, oa⟩).2.airlines
          = st.airlines.set index
              (applyAirlineUpdate (st.airlines.getD index default) ⟨some id, oi, onm, oc, oa⟩) := by
        simp only [airlineUpdate, hidx]
        split <;> rfl
      have hidIdx : (airlineUpdate st ⟨some id, oi, onm, oc, oa⟩).2.airlineIdToIndex
          = st.airlineIdToIndex := by
        simp only [airlineUpdate, hidx]
        split <;> rfl
      have haps : (airlineUpdate st ⟨some id, oi, onm, oc, oa⟩).2.airports = st.airports := by
        simp only [airlineUpdate, hidx]
        split <;> rfl
      have hapIdx : (airlineUpdate st ⟨some id, oi, onm, oc, oa⟩).2.airportIdToIndex
          = st.airportIdToIndex := by
        simp only [airlineUpdate, hidx]
        split <;> rfl
      refine ⟨?_, hidIdx, haps, hapIdx⟩
      rw [hairl]
      exact map_set_eq_of_key Airline.id default st.airlines index _
        (applyAirlineUpdate_id _ _)

/-- An airport update changes neither the stored ID multiset, the ID
indexes, nor any airline-side field. -/
theorem airportUpdate_shape (st : Store) (req : AirportUpdateReq) :
    (airportUpdate st req).2.airports.map Airport.id = st.airports.map Airport.id ∧
    (airportUpdate st req).2.airportIdToIndex = st.airportIdToIndex ∧
    (airportUpdate st req).2.airlines = st.airlines ∧
    (airportUpdate st req).2.airlineIdToIndex = st.airlineIdToIndex := by
  obtain ⟨oid, oi, onm, oc1, oc2, ola, olo⟩ := req
  cases oid with
  | none => exact ⟨rfl, rfl, rfl, rfl⟩
  | some id =>
    cases hidx : st.airportIdToIndex id with
    | none => simp [airportUpdate, hidx]
    | some index =>
      have haps : (airportUpdate st ⟨some id, oi, onm, oc1, oc2, ola, olo⟩).2.airports
          = st.airports.set index
              (applyAirportUpdate (st.airports.getD index default)
                ⟨some id, oi, onm, oc1, oc2, ola, olo⟩) := by
        simp only [airportUpdate, hidx]
        split <;> rfl
      have hidIdx : (airportUpdate st ⟨some id, oi, onm, oc1, oc2, ola, olo⟩).2.airportIdToIndex
          = st.airportIdToIndex := by
        simp only [airportUpdate, hidx]
        split <;> rfl
      have hals : (airportUpdate st ⟨some id, oi, onm, oc1, oc2, ola, olo⟩).2.airlines
          = st.airlines := by
        simp only [airportUpdate, hidx]
        split <;> rfl
      have halIdx : (airportUpdate st ⟨some id, oi, onm, oc1, oc2, ola, olo⟩).2.airlineIdToIndex
          = st.airlineIdToIndex := by
        simp only [airportUpdate, hidx]
        split <;> rfl
      refine ⟨?_, hidIdx, hals, halIdx⟩
      rw [haps]
      exact map_set_eq_of_key Airport.id default st.airports index _
        (applyAirportUpdate_id _ _)

/-- A route addition leaves every entity-store field alone. -/
theorem routeAdd_shape (st : Store) (req : RouteAddReq) :
    (routeAdd st req).2.airlines = st.airlines ∧
    (routeAdd st req).2.airlineIdToIndex = st.airlineIdToIndex ∧
    (routeAdd st req).2.airports = st.airports ∧
    (routeAdd st req).2.airportIdToIndex = st.airportIdToIndex := by
  obtain ⟨oa, os, od, ost⟩ := req
  cases oa with
  | none => exact ⟨rfl, rfl, rfl, rfl⟩
  | some aid =>
    cases os with
    | none => exact ⟨rfl, rfl, rfl, rfl⟩
    | some sid =>
      cases od with
      | none => exact ⟨rfl, rfl, rfl, rfl⟩
      | some did =>
        by_cases b1 : (st.airlineIdToIndex aid).isNone
        · simp [routeAdd, b1]
        · by_cases b2 : (st.airportIdToIndex sid).isNone
          · simp [routeAdd, b1, b2]
          · by_cases b3 : (st.airportIdToIndex did).isNone
            · simp [routeAdd, b1, b2, b3]
            · simp [routeAdd, b1, b2, b3]

/-- Every request whose numeric ID is already indexed is rejected by the
airline add handler without any effect. -/
theorem airlineAdd_rejects_indexed (st : Store) (req : AirlineAddReq) (id : Int)
    (hid : req.id = some id) (hdup : (st.airlineIdToIndex id).isSome) :
    (airlineAdd st req).1 ≠ Resp.ok ∧ (airlineAdd st req).2 = st := by
  obtain ⟨oid, oi, onm, oc, oa⟩ := req
  subst hid
  cases oi with
  | none => exact ⟨by simp [airlineAdd], rfl⟩
  | some s =>
    cases onm with
    | none => exact ⟨by simp [airlineAdd], rfl⟩
    | some nm =>
      constructor
      · simp [airlineAdd, hdup]
      · simp [airlineAdd, hdup]

/-- Every request whose numeric ID is already indexed is rejected by the
airport add handler without any effect. -/
theorem airportAdd_rejects_indexed (st : Store) (req : AirportAddReq) (id : Int)
    (hid : req.id = some id) (hdup : (st.airportIdToIndex id).isSome) :
    (airportAdd st req).1 ≠ Resp.ok ∧ (airportAdd st req).2 = st := by
  obtain ⟨oid, oi, onm, oc1, oc2, ola, olo⟩ := req
  subst hid
  cases oi with
  | none => exact ⟨by simp [airportAdd], rfl⟩
  | some s =>
    cases onm with
    | none => exact ⟨by simp [airportAdd], rfl⟩
    | some nm =>
      constructor
      · simp [airportAdd, hdup]
      · simp [airportAdd, hdup]

/-- Every mutation endpoint preserves the ID-uniqueness invariant. -/
theorem IdsInv_applyOp (st : Store) (op : Op) (h : IdsInv st) : IdsInv (applyOp st op) := by
  obtain ⟨h1, h2, h3, h4⟩ := h
  cases op with
  | airlineAdd req =>
    obtain ⟨oid, oi, onm, oc, oa⟩ := req
    cases oid with
    | none => exact ⟨h1, h2, h3, h4⟩
    | some id =>
      cases oi with
      | none => exact ⟨h1, h2, h3, h4⟩
      | some s =>
        cases onm with
        | none => exact ⟨h1, h2, h3, h4⟩
        | some nm =>
          show IdsInv (airlineAdd st ⟨some id, some s, some nm, oc, oa⟩).2
          by_cases hdup : (st.airlineIdToIndex id).isSome
          · have hst : (airlineAdd st ⟨some id, some s, some nm, oc, oa⟩).2 = st := by
              simp [airlineAdd, hdup]
            rw [hst]
            exact ⟨h1, h2, h3, h4⟩
          · have hb : (st.airlineIdToIndex id).isSome = false := by
              simpa using hdup
            have hnotmem : id ∉ st.airlines.map Airline.id := fun hmem => hdup (h3 id hmem)
            have hA : (airlineAdd st ⟨some id, some s, some nm, oc, oa⟩).2.airlines
                = st.airlines ++
                  [{ id := id, iata := toUpper (trim s), name := trim nm
                     country := trim (oc.getD ""), active := oa.getD true }] := by
              simp [airlineAdd, hb]
            have hI : ∀ k, (airlineAdd st ⟨some id, some s, some nm, oc, oa⟩).2.airlineIdToIndex k
                = if k = id then some st.airlines.length else st.airlineIdToIndex k := by
              intro k
              simp [airlineAdd, hb]
            have hP : (airlineAdd st ⟨some id, some s, some nm, oc, oa⟩).2.airports
                = st.airports := by
              simp [airlineAdd, hb]
            have hPI : (airlineAdd st ⟨some id, some s, some nm, oc, oa⟩).2.airportIdToIndex
                = st.airportIdToIndex := by
              simp [airlineAdd, hb]
            refine ⟨?_, ?_, ?_, ?_⟩
            · rw [hA]
              simp only [List.map_append, List.map_cons, List.map_nil]
              refine ((List.perm_append_singleton _ _).nodup_iff).mpr ?_
              exact List.nodup_cons.mpr ⟨hnotmem, h1⟩
            · rw [hP]
              exact h2
            · intro k hk
              rw [hA] at hk
              simp only [List.map_append, List.map_cons, List.map_nil,
                List.mem_append, List.mem_singleton] at hk
              rw [hI k]
              by_cases hkid : k = id
              · simp [hkid]
              · rw [if_neg hkid]
                rcases hk with hk | hk
                · exact h3 k hk
                · exact absurd hk hkid
            · intro k hk
              rw [hP] at hk
              rw [hPI]
              exact h4 k hk
  | airlineUpdate req =>
    obtain ⟨e1, e2, e3, e4⟩ := airlineUpdate_shape st req
    show IdsInv (airlineUpdate st req).2
    refine ⟨?_, ?_, ?_, ?_⟩
    · rw [e1]
      exact h1
    · rw [e3]
      exact h2
    · intro k hk
      rw [e1] at hk
      rw [e2]
      exact h3 k hk
    · intro k hk
      rw [e3] at hk
      rw [e4]
      exact h4 k hk
  | airportAdd req =>
    obtain ⟨oid, oi, onm, oc1, oc2, ola, olo⟩ := req
    cases oid with
    | none => exact ⟨h1, h2, h3, h4⟩
    | some id =>
      cases oi with
      | none => exact ⟨h1, h2, h3, h4⟩
      | some s =>
        cases onm with
        | none => exact ⟨h1, h2, h3, h4⟩
        | some nm =>
          show IdsInv (airportAdd st ⟨some id, some s, some nm, oc1, oc2, ola, olo⟩).2
          by_cases hdup : (st.airportIdToIndex id).isSome
          · have hst : (airportAdd st ⟨some id, some s, some nm, oc1, oc2, ola, olo⟩).2 = st := by
              simp [airportAdd, hdup]
            rw [hst]
            exact ⟨h1, h2, h3, h4⟩
          · have hb : (st.airportIdToIndex id).isSome = false := by
              simpa using hdup
            have hnotmem : id ∉ st.airports.map Airport.id := fun hmem => hdup (h4 id hmem)
            have hA : (airportAdd st ⟨some id, some s, some nm, oc1, oc2, ola, olo⟩).2.airports
                = st.airports ++
                  [{ id := id, iata := toUpper (trim s), name := trim nm
                     city := trim (oc1.getD ""), country := trim (oc2.getD "")
                     latitude := ola.getD 0, longitude := olo.getD 0 }] := by
              simp [airportAdd, hb]
            have hI : ∀ k,
                (airportAdd st ⟨some id, some s, some nm, oc1, oc2, ola, olo⟩).2.airportIdToIndex k
                = if k = id then some st.airports.length else st.airportIdToIndex k := by
              intro k
              simp [airportAdd, hb]
            have hP : (airportAdd st ⟨some id, some s, some nm, oc1, oc2, ola, olo⟩).2.airlines
                = st.airlines := by
              simp [airportAdd, hb]
            have hPI :
                (airportAdd st ⟨some id, some s, some nm, oc1, oc2, ola, olo⟩).2.airlineIdToIndex
                = st.airlineIdToIndex := by
              simp [airportAdd, hb]
            refine ⟨?_, ?_, ?_, ?_⟩
            · rw [hP]
              exact h1
            · rw [hA]
              simp only [List.map_append, List.map_cons, List.map_nil]
              refine ((List.perm_append_singleton _ _).nodup_iff).mpr ?_
              exact List.nodup_cons.mpr ⟨hnotmem, h2⟩
            · intro k hk
              rw [hP] at hk
              rw [hPI]
              exact h3 k hk
            · intro k hk
              rw [hA] at hk
              simp only [List.map_append, List.map_cons, List.map_nil,
                List.mem_append, List.mem_singleton] at hk
              rw [hI k]
              by_cases hkid : k = id
              · simp [hkid]
              · rw [if_neg hkid]
                rcases hk with hk | hk
                · exact h4 k hk
                · exact absurd hk hkid
  | airportUpdate req =>
    obtain ⟨e1, e2, e3, e4⟩ := airportUpdate_shape st req
    show IdsInv (airportUpdate st req).2
    refine ⟨?_, ?_, ?_, ?_⟩
    · rw [e3]
      exact h1
    · rw [e1]
      exact h2
    · intro k hk
      rw [e3] at hk
      rw [e4]
      exact h3 k hk
    · intro k hk
      rw [e1] at hk
      rw [e2]
      exact h4 k hk
  | routeAdd req =>
    obtain ⟨e1, e2, e3, e4⟩ := routeAdd_shape st req
    show IdsInv (routeAdd st req).2
    refine ⟨?_, ?_, ?_, ?_⟩
    · rw [e1]
      exact h1
    · rw [e3]
      exact h2
    · intro k hk
      rw [e1] at hk
      rw [e2]
      exact h3 k hk
    · intro k hk
      rw [e3] at hk
      rw [e4]
      exact h4 k hk

/-- Any sequence of mutation requests preserves the ID-uniqueness
invariant. -/
theorem IdsInv_runOps (ops : List Op) :
    ∀ st : Store, IdsInv st → IdsInv (runOps st ops) := by
  induction ops with
  | nil => intro st h; exact h
  | cons op rest ih =>
    intro st h
    rw [runOps, List.foldl_cons]
    have goal := ih (applyOp st op) (IdsInv_applyOp st op h)
    rw [runOps] at goal
    exact goal

/-- Fixture airline record with ID 5. -/
def alD1 : Airline := ⟨5, "DA", "Dup One", "", true⟩

/-- A second, distinct fixture airline record with the same ID 5. -/
def alD2 : Airline := ⟨5, "DB", "Dup Two", "", true⟩

/-- C7 counterexample: startup ingestion performs no duplicate-ID check, so
ingesting two airline records with ID 5 yields a reachable state (reachable
with the empty operation sequence) whose airline store holds the ID twice —
airline IDs are NOT unique in every reachable state when the ingested input
is arbitrary. -/
theorem ids_unique_cex :
    runOps (ingest [alD1, alD2] [] []) [] = ingest [alD1, alD2] [] [] ∧
    (ingest [alD1, alD2] [] []).airlines.map Airline.id = [5, 5] ∧
    ¬ ((ingest [alD1, alD2] [] []).airlines.map Airline.id).Nodup :=
  ⟨rfl, by decide, by decide⟩

/-- C7 (amended): when the ingested airline and airport record sequences
carry pairwise-distinct IDs, then in every reachable state (startup
ingestion followed by any sequence of add/update operations) every airline
ID and every airport ID is unique within its store, and any attempt to
insert a record whose numeric ID already exists is rejected with no effect
on the store. -/
theorem ids_unique (als : List Airline) (aps : List Airport) (rts : List Route)
    (ops : List Op) (hal : (als.map Airline.id).Nodup) (hap : (aps.map Airport.id).Nodup) :
    ((runOps (ingest als aps rts) ops).airlines.map Airline.id).Nodup ∧
    ((runOps (ingest als aps rts) ops).airports.map Airport.id).Nodup ∧
    (∀ (req : AirlineAddReq) (id : Int), req.id = some id →
      id ∈ (runOps (ingest als aps rts) ops).airlines.map Airline.id →
      (airlineAdd (runOps (ingest als aps rts) ops) req).1 ≠ Resp.ok ∧
      (airlineAdd (runOps (ingest als aps rts) ops) req).2 = runOps (ingest als aps rts) ops) ∧
    (∀ (req : AirportAddReq) (id : Int), req.id = some id →
      id ∈ (runOps (ingest als aps rts) ops).airports.map Airport.id →
      (airportAdd (runOps (ingest als aps rts) ops) req).1 ≠ Resp.ok ∧
      (airportAdd (runOps (ingest als aps rts) ops) req).2 = runOps (ingest als aps rts) ops) := by
  obtain ⟨h1, h2, h3, h4⟩ :=
    IdsInv_runOps ops (ingest als aps rts) (IdsInv_ingest als aps rts hal hap)
  refine ⟨h1, h2, ?_, ?_⟩
  · intro req id hid hmem
    exact airlineAdd_rejects_indexed _ req id hid (h3 id hmem)
  · intro req id hid hmem
    exact airportAdd_rejects_indexed _ req id hid (h4 id hmem)

/-- Witness for the amended C7, at the concrete duplicate-free ingestion of
the fixtures and the empty operation sequence. -/
theorem ids_unique_witness :
    ((runOps (ingest [alW1, alW2] [apW10, apW20, apW30] [rW0, rW1, rW2]) []).airlines.map
        Airline.id).Nodup ∧
    ((runOps (ingest [alW1, alW2] [apW10, apW20, apW30] [rW0, rW1, rW2]) []).airports.map
        Airport.id).Nodup ∧
    (∀ (req : AirlineAddReq) (id : Int), req.id = some id →
      id ∈ (runOps (ingest [alW1, alW2] [apW10, apW20, apW30] [rW0, rW1, rW2]) []).airlines.map
        Airline.id →
      (airlineAdd (runOps (ingest [alW1, alW2] [apW10, apW20, apW30] [rW0, rW1, rW2]) []) req).1
          ≠ Resp.ok ∧
      (airlineAdd (runOps (ingest [alW1, alW2] [apW10, apW20, apW30] [rW0, rW1, rW2]) []) req).2
          = runOps (ingest [alW1, alW2] [apW10, apW20, apW30] [rW0, rW1, rW2]) []) ∧
    (∀ (req : AirportAddReq) (id : Int), req.id = some id →
      id ∈ (runOps (ingest [alW1, alW2] [apW10, apW20, apW30] [rW0, rW1, rW2]) []).airports.map
        Airport.id →
      (airportAdd (runOps (ingest [alW1, alW2] [apW10, apW20, apW30] [rW0, rW1, rW2]) []) req).1
          ≠ Resp.ok ∧
      (airportAdd (runOps (ingest [alW1, alW2] [apW10, apW20, apW30] [rW0, rW1, rW2]) []) req).2
          = runOps (ingest [alW1, alW2] [apW10, apW20, apW30] [rW0, rW1, rW2]) []) :=
  ids_unique [alW1, alW2] [apW10, apW20, apW30] [rW0, rW1, rW2] [] (by decide) (by decide)
